import Mathlib

/-!
Shallow embedding of the ArduSub altitude-sensing pipeline
(`src/ArduSub/sensors.cpp`): barometer calibration monitor
(`read_barometer`), rangefinder sampling with health evaluation, tilt
correction and stale-aware filtering (`read_rangefinder`), and the
validity gate (`rangefinder_alt_ok`).

Machine integers are modelled as `Nat`/`Int` with explicit reduction
modulo 2^32 where uint32 wraparound matters (the millisecond clock);
float quantities (filter value, rotation matrix entry, terrain offset)
are modelled as exact rationals.
-/

namespace Surftrak

/-- 2^32, the modulus of `uint32_t` arithmetic. -/
def UINT32_MOD : Nat := 4294967296

/-- `a - b` computed in `uint32_t` arithmetic (wrapping subtraction),
as used for elapsed-time computations on the millisecond clock. -/
def sub32 (a b : Nat) : Nat :=
  (a % UINT32_MOD + (UINT32_MOD - b % UINT32_MOD)) % UINT32_MOD

/-- Truncation of a rational toward zero, the semantics of the C++
float-to-integer conversion performed when the tilt-corrected product
is assigned back to the `int16_t` variable `temp_alt`. -/
def truncQ (q : ℚ) : ℤ := if 0 ≤ q then ⌊q⌋ else ⌈q⌉

/-- Modelled from the spec: `RANGEFINDER_TIMEOUT_MS` is defined in the
vehicle configuration header, which is not under `src/`; the spec gives
a "default timeout on the order of 1000 ms" and the code comments call
it "the last second". -/
def RANGEFINDER_TIMEOUT_MS : Nat := 1000

/-- Modelled from the spec: `RANGEFINDER_HEALTH_MAX` (the spec's
`HEALTH_MIN_COUNT`, the minimum consecutive valid-sample count) is
defined in the vehicle configuration header, which is not under
`src/`; the spec gives no concrete value and no claim depends on one,
only on the comparison `validCount >= HEALTH_MIN_COUNT`. -/
def RANGEFINDER_HEALTH_MAX : Nat := 3

/-- Rangefinder driver status, `RangeFinder::Status`. -/
inductive RFStatus where
  | NotConnected
  | NoData
  | OutOfRangeLow
  | OutOfRangeHigh
  | Good
  deriving DecidableEq, Repr

/-- The subsystem state `rangefinder_state` (plus the filter's internal
value, held by the member `alt_cm_filt`). -/
structure RangefinderState where
  enabled : Bool
  alt_healthy : Bool
  alt_cm : ℤ
  min_cm : ℤ
  max_cm : ℤ
  alt_cm_filt : ℚ
  last_healthy_ms : Nat
  deriving DecidableEq, Repr

/-- One cycle's worth of external collaborator outputs consumed by
`read_rangefinder`: the rangefinder driver readings for
`ROTATION_PITCH_270`, the attitude estimator's rotation matrix entry
`c.z`, the inertial-navigation vertical position, and the waypoint
controller's `rangefinder_used` report. -/
structure DriverInput where
  status : RFStatus
  range_valid_count : Nat
  signal_quality_pct : ℤ
  distance_cm : ℤ
  min_distance_cm : ℤ
  max_distance_cm : ℤ
  rotation_zz : ℚ
  pos_z_up_cm : ℚ
  wp_nav_rangefinder_used : Bool
  deriving DecidableEq, Repr

/-- A `(enabled, healthy, terrain_offset_cm)` triple passed to a
navigation consumer via `set_rangefinder_terrain_offset`. -/
structure Publication where
  enabled : Bool
  healthy : Bool
  terrain_offset_cm : ℚ
  deriving DecidableEq, Repr

/-- Result of one `read_rangefinder` cycle: the updated state and the
triples published to the waypoint and circle navigation consumers. -/
structure ReadResult where
  state : RangefinderState
  wp_pub : Publication
  circle_pub : Publication
  deriving DecidableEq, Repr

/-- The health evaluation of `read_rangefinder` (sensors.cpp lines
37-40): status Good, consecutive valid-sample count at least
`RANGEFINDER_HEALTH_MAX`, and signal quality either -1 (n/a) or
strictly above 90. -/
def healthEval (d : DriverInput) : Bool :=
  (d.status == RFStatus.Good)
    && decide (RANGEFINDER_HEALTH_MAX ≤ d.range_valid_count)
    && (decide (d.signal_quality_pct = -1) || decide (90 < d.signal_quality_pct))

/-- Tilt correction (sensors.cpp lines 44-47, with
`RANGEFINDER_TILT_CORRECTION == ENABLED`): multiply the raw distance by
`MAX(0.707f, ahrs.get_rotation_body_to_ned().c.z)` in float and assign
back to the `int16_t` variable, truncating toward zero. -/
def correctForTilt (rawCm : ℤ) (zz : ℚ) : ℤ :=
  truncQ ((rawCm : ℚ) * max (707/1000 : ℚ) zz)

/-- Modelled from the spec: the low-pass filter object `alt_cm_filt`
(a `LowPassFilterFloat`) is declared outside `src/`; per the spec,
`reset` discards all history and sets the internal value directly to
the sample. -/
def filtReset (sample : ℚ) : ℚ := sample

/-- Modelled from the spec: the low-pass filter object `alt_cm_filt`
(a `LowPassFilterFloat`) is declared outside `src/`; per the spec,
`apply` performs one step of exponential smoothing toward the sample
with a fixed small gain of 0.05. -/
def filtApply (value sample : ℚ) : ℚ := value + (1/20) * (sample - value)

/-- One cycle of `read_rangefinder` (sensors.cpp lines 29-69), in the
configuration where the rangefinder subsystem is compiled in
(`RANGEFINDER_ENABLED == ENABLED`). `now` is `AP_HAL::millis()`. -/
def read_rangefinder (s : RangefinderState) (d : DriverInput) (now : Nat) :
    ReadResult :=
  let alt_healthy := healthEval d
  let temp_alt := correctForTilt d.distance_cm d.rotation_zz
  let s1 : RangefinderState :=
    { s with
      alt_healthy := alt_healthy
      alt_cm := temp_alt
      min_cm := d.min_distance_cm
      max_cm := d.max_distance_cm }
  let s2 : RangefinderState :=
    if alt_healthy then
      if RANGEFINDER_TIMEOUT_MS < sub32 now s1.last_healthy_ms then
        { s1 with
          alt_cm_filt := filtReset (s1.alt_cm : ℚ)
          last_healthy_ms := now % UINT32_MOD }
      else
        { s1 with
          alt_cm_filt := filtApply s1.alt_cm_filt (s1.alt_cm : ℚ)
          last_healthy_ms := now % UINT32_MOD }
    else s1
  let terrain_offset_cm := d.pos_z_up_cm - s2.alt_cm_filt
  { state := s2
    wp_pub :=
      { enabled := s2.enabled
        healthy := s2.alt_healthy
        terrain_offset_cm := terrain_offset_cm }
    circle_pub :=
      { enabled := s2.enabled && d.wp_nav_rangefinder_used
        healthy := s2.alt_healthy
        terrain_offset_cm := terrain_offset_cm } }

/-- The `#else` branch of `read_rangefinder` (sensors.cpp lines 71-75),
taken when the rangefinder subsystem is compiled out: force
`enabled`, `alt_healthy` false and `alt_cm` zero, publish nothing. -/
def read_rangefinder_compiled_out (s : RangefinderState) : RangefinderState :=
  { s with enabled := false, alt_healthy := false, alt_cm := 0 }

/-- The validity gate `rangefinder_alt_ok` (sensors.cpp lines 79-83). -/
def rangefinder_alt_ok (s : RangefinderState) (now : Nat) : Bool :=
  s.enabled && s.alt_healthy
    && decide (sub32 now s.last_healthy_ms < RANGEFINDER_TIMEOUT_MS)

/-- The observable effects of one `read_barometer` cycle: whether
`barometer.update_calibration()` was invoked, and the value written to
the shared depth-sensor health flag (none when no depth sensor is
present). -/
structure BaroEffects where
  calibration_triggered : Bool
  depth_health : Option Bool
  deriving DecidableEq, Repr

/-- One cycle of `read_barometer` (sensors.cpp lines 4-16):
recalibrate whenever the barometric altitude reads strictly positive,
and mirror the barometer driver's health flag into shared vehicle
health state when a depth sensor is present. -/
def read_barometer (altitude_cm : ℚ) (depth_sensor_present : Bool)
    (baro_healthy : Bool) : BaroEffects :=
  { calibration_triggered := decide (0 < altitude_cm)
    depth_health := if depth_sensor_present then some baro_healthy else none }

/-! ### Concrete sample states and driver inputs, used to evaluate the
theorems on explicit values. -/

/-- A state whose `enabled` flag is false. -/
def exStateDisabled : RangefinderState :=
  { enabled := false, alt_healthy := false, alt_cm := 0, min_cm := 0,
    max_cm := 0, alt_cm_filt := 0, last_healthy_ms := 4500 }

/-- An enabled state with filter value 100 whose last healthy sample is
recent relative to clock value 5000 (elapsed 500 ms). -/
def exStateBlend : RangefinderState :=
  { exStateDisabled with enabled := true, alt_cm_filt := 100 }

/-- An enabled state whose last healthy sample is stale relative to
clock value 2500 (elapsed 2500 ms). -/
def exStateStale : RangefinderState :=
  { exStateBlend with last_healthy_ms := 0 }

/-- An enabled state with `alt_healthy` true whose last healthy sample
is stale relative to clock value 2000 (elapsed 2000 ms). -/
def exStateHealthyOld : RangefinderState :=
  { exStateBlend with alt_healthy := true, last_healthy_ms := 0 }

/-- A driver input passing every health check (signal quality n/a). -/
def exInputGood : DriverInput :=
  { status := RFStatus.Good, range_valid_count := 10, signal_quality_pct := -1,
    distance_cm := 500, min_distance_cm := 20, max_distance_cm := 700,
    rotation_zz := 1, pos_z_up_cm := 0, wp_nav_rangefinder_used := true }

/-- A driver input failing the signal-quality check (50 ≤ 90). -/
def exInputBad : DriverInput :=
  { exInputGood with signal_quality_pct := 50 }

/-- A healthy driver input reporting 300 cm with quality 95. -/
def exInput300 : DriverInput :=
  { exInputGood with distance_cm := 300, signal_quality_pct := 95 }

/-! ### Helper lemmas shared by the claim theorems. -/

/-- The health evaluation as a proposition. -/
theorem healthEval_eq_true_iff (d : DriverInput) :
    healthEval d = true ↔
      (d.status = RFStatus.Good ∧
        RANGEFINDER_HEALTH_MAX ≤ d.range_valid_count ∧
        (d.signal_quality_pct = -1 ∨ 90 < d.signal_quality_pct)) := by
  simp [healthEval, and_assoc]

/-- `read_rangefinder` stores the health evaluation in `alt_healthy` on
every branch. -/
theorem read_rangefinder_alt_healthy (s : RangefinderState) (d : DriverInput)
    (now : Nat) :
    (read_rangefinder s d now).state.alt_healthy = healthEval d := by
  simp only [read_rangefinder]
  split
  · split <;> rfl
  · rfl

/-- `read_rangefinder` stores the tilt-corrected distance in `alt_cm` on
every branch. -/
theorem read_rangefinder_alt_cm (s : RangefinderState) (d : DriverInput)
    (now : Nat) :
    (read_rangefinder s d now).state.alt_cm =
      correctForTilt d.distance_cm d.rotation_zz := by
  simp only [read_rangefinder]
  split
  · split <;> rfl
  · rfl

/-- Truncation toward zero of an integer is the identity. -/
theorem truncQ_intCast (n : ℤ) : truncQ (n : ℚ) = n := by
  unfold truncQ
  split <;> simp

/-- At level attitude (`rotation_zz = 1`) tilt correction is the
identity: the factor `max 0.707 1` is 1 and truncation of an integer
is exact. -/
theorem correctForTilt_level (raw : ℤ) : correctForTilt raw 1 = raw := by
  unfold correctForTilt
  rw [max_eq_right (by norm_num : (707/1000 : ℚ) ≤ 1), mul_one, truncQ_intCast]

/-- `read_rangefinder` copies the driver's advertised bounds into
`min_cm` and `max_cm` on every branch. -/
theorem read_rangefinder_bounds (s : RangefinderState) (d : DriverInput)
    (now : Nat) :
    (read_rangefinder s d now).state.min_cm = d.min_distance_cm ∧
      (read_rangefinder s d now).state.max_cm = d.max_distance_cm := by
  constructor <;>
    (simp only [read_rangefinder]
     split
     · split <;> rfl
     · rfl)

/-! ### Claim theorems -/

/-- C2: the health evaluation in `read_rangefinder` sets `altHealthy`
to true if and only if the status is Good, the consecutive valid-sample
count is at least the health threshold, and the signal quality is
either -1 or strictly greater than 90 (so every quality in
{-1} ∪ (90,100] passes and every quality at most 90 other than -1
fails). -/
theorem c2_health_iff (s : RangefinderState) (d : DriverInput) (now : Nat) :
    (read_rangefinder s d now).state.alt_healthy = true ↔
      (d.status = RFStatus.Good ∧
        RANGEFINDER_HEALTH_MAX ≤ d.range_valid_count ∧
        (d.signal_quality_pct = -1 ∨ 90 < d.signal_quality_pct)) := by
  rw [read_rangefinder_alt_healthy]
  exact healthEval_eq_true_iff d

/-- C9: on a cycle where `altHealthy` evaluates false, `read_rangefinder`
leaves the filter's internal value and `last_healthy_ms` unchanged. -/
theorem c9_unhealthy_no_filter_mutation (s : RangefinderState)
    (d : DriverInput) (now : Nat)
    (h : (read_rangefinder s d now).state.alt_healthy = false) :
    (read_rangefinder s d now).state.alt_cm_filt = s.alt_cm_filt ∧
      (read_rangefinder s d now).state.last_healthy_ms = s.last_healthy_ms := by
  rw [read_rangefinder_alt_healthy] at h
  simp [read_rangefinder, h]

/-- C9 witness: with a signal quality of 50 the cycle is unhealthy, and
the filter value (100) and timestamp (4500) survive the cycle. -/
theorem c9_unhealthy_no_filter_mutation_witness :
    (read_rangefinder exStateBlend exInputBad 5000).state.alt_cm_filt =
        exStateBlend.alt_cm_filt ∧
      (read_rangefinder exStateBlend exInputBad 5000).state.last_healthy_ms =
        exStateBlend.last_healthy_ms :=
  c9_unhealthy_no_filter_mutation exStateBlend exInputBad 5000 (by decide)

/-- C10: every `read_rangefinder` invocation (subsystem compiled in)
overwrites `alt_cm`, `min_cm` and `max_cm` with the current cycle's
tilt-corrected distance and driver-reported bounds, healthy or not. -/
theorem c10_sample_fields_always_overwritten (s : RangefinderState)
    (d : DriverInput) (now : Nat) :
    (read_rangefinder s d now).state.alt_cm =
        correctForTilt d.distance_cm d.rotation_zz ∧
      (read_rangefinder s d now).state.min_cm = d.min_distance_cm ∧
      (read_rangefinder s d now).state.max_cm = d.max_distance_cm :=
  ⟨read_rangefinder_alt_cm s d now, read_rangefinder_bounds s d now⟩

/-- C6: `rangefinder_alt_ok` returns the conjunction of `enabled`,
`alt_healthy`, and `now - last_healthy_ms < RANGEFINDER_TIMEOUT_MS`
(uint32 wrapping subtraction); in particular it returns false whenever
the elapsed time reaches the timeout, regardless of `alt_healthy`. -/
theorem c6_validity_gate (s : RangefinderState) (now : Nat) :
    (rangefinder_alt_ok s now = true ↔
      (s.enabled = true ∧ s.alt_healthy = true ∧
        sub32 now s.last_healthy_ms < RANGEFINDER_TIMEOUT_MS)) ∧
    (RANGEFINDER_TIMEOUT_MS ≤ sub32 now s.last_healthy_ms →
      rangefinder_alt_ok s now = false) := by
  constructor
  · simp [rangefinder_alt_ok, and_assoc]
  · intro h
    simp [rangefinder_alt_ok, not_lt.mpr h]

/-- C6 witness: an enabled state with `alt_healthy` true but a last
healthy timestamp 2000 ms old is rejected by the gate. -/
theorem c6_validity_gate_witness :
    rangefinder_alt_ok exStateHealthyOld 2000 = false :=
  (c6_validity_gate exStateHealthyOld 2000).2 (by decide)

/-- C7 counterexample: the claim inverts the code's trigger condition.
`read_barometer` calls `update_calibration` only when the altitude is
strictly positive, so an altitude of 0 cm does not trigger calibration
and an altitude of 150 cm does. -/
theorem c7_counterexample :
    (read_barometer 0 true true).calibration_triggered = false ∧
      (read_barometer 150 true true).calibration_triggered = true := by
  constructor <;> rfl

/-- C7 amended: calibration is triggered exactly when the reported
altitude is strictly positive; in particular it is not triggered at
0 cm and is triggered at 150 cm. -/
theorem c7_amended (alt : ℚ) (present healthy : Bool) :
    ((read_barometer alt present healthy).calibration_triggered = true ↔
        0 < alt) ∧
      (read_barometer 0 present healthy).calibration_triggered = false ∧
      (read_barometer 150 present healthy).calibration_triggered = true := by
  refine ⟨by simp [read_barometer], by rfl, by rfl⟩

/-- C1 counterexample: in the compiled-in configuration,
`read_rangefinder` never consults the `enabled` flag, so a disabled
state fed a fully healthy driver input comes out with `alt_healthy`
true and a nonzero `alt_cm`. -/
theorem c1_counterexample :
    exStateDisabled.enabled = false ∧
      (read_rangefinder exStateDisabled exInputGood 5000).state.alt_healthy =
        true ∧
      (read_rangefinder exStateDisabled exInputGood 5000).state.alt_cm =
        500 := by
  refine ⟨rfl, by decide, ?_⟩
  rw [read_rangefinder_alt_cm]
  exact correctForTilt_level 500

/-- C1 amended: the claimed invariant holds in the compiled-out
configuration, where `read_rangefinder` forces `enabled` and
`alt_healthy` false and `alt_cm` to 0 for every state; in the
compiled-in configuration `read_rangefinder` does not consult the
`enabled` flag, so `alt_healthy` and `alt_cm` after the call are
determined by the driver inputs alone, regardless of `enabled`. -/
theorem c1_amended (s : RangefinderState) (d : DriverInput) (now : Nat)
    (b : Bool) :
    (read_rangefinder_compiled_out s).enabled = false ∧
      (read_rangefinder_compiled_out s).alt_healthy = false ∧
      (read_rangefinder_compiled_out s).alt_cm = 0 ∧
      (read_rangefinder { s with enabled := b } d now).state.alt_healthy =
        (read_rangefinder s d now).state.alt_healthy ∧
      (read_rangefinder { s with enabled := b } d now).state.alt_cm =
        (read_rangefinder s d now).state.alt_cm := by
  refine ⟨rfl, rfl, rfl, ?_, ?_⟩
  · rw [read_rangefinder_alt_healthy, read_rangefinder_alt_healthy]
  · rw [read_rangefinder_alt_cm, read_rangefinder_alt_cm]

/-- C3: when the elapsed time since the last healthy sample strictly
exceeds the timeout, a healthy cycle resets the filter to exactly the
cycle's tilt-corrected sample, discarding the previous filter value. -/
theorem c3_reset_after_timeout (s : RangefinderState) (d : DriverInput)
    (now : Nat) (hh : healthEval d = true)
    (ht : RANGEFINDER_TIMEOUT_MS < sub32 now s.last_healthy_ms) :
    (read_rangefinder s d now).state.alt_cm_filt =
      ((correctForTilt d.distance_cm d.rotation_zz : ℤ) : ℚ) := by
  simp [read_rangefinder, hh, ht, filtReset]

/-- C3 witness: after a 2500 ms gap (timeout 1000 ms) a healthy 300 cm
sample at level attitude makes the filter value exactly 300, not a
blend with the previous value 100. -/
theorem c3_reset_after_timeout_witness :
    (read_rangefinder exStateStale exInput300 2500).state.alt_cm_filt =
      300 := by
  rw [c3_reset_after_timeout exStateStale exInput300 2500 (by decide)
    (by decide)]
  show ((correctForTilt (300 : ℤ) 1 : ℤ) : ℚ) = 300
  rw [correctForTilt_level]
  norm_num

/-- C4: a healthy cycle within the timeout of the last healthy sample
updates the filter by the fixed-gain blend
`new = old + 0.05 * (corrected - old)`, so the change in the filter
value is at most 0.05 times its distance to the corrected sample. -/
theorem c4_blend_within_timeout (s : RangefinderState) (d : DriverInput)
    (now : Nat) (hh : healthEval d = true)
    (ht : sub32 now s.last_healthy_ms ≤ RANGEFINDER_TIMEOUT_MS) :
    (read_rangefinder s d now).state.alt_cm_filt =
        s.alt_cm_filt +
          (1/20) * (((correctForTilt d.distance_cm d.rotation_zz : ℤ) : ℚ) -
            s.alt_cm_filt) ∧
      |(read_rangefinder s d now).state.alt_cm_filt - s.alt_cm_filt| ≤
        (1/20) *
          |((correctForTilt d.distance_cm d.rotation_zz : ℤ) : ℚ) -
            s.alt_cm_filt| := by
  have heq : (read_rangefinder s d now).state.alt_cm_filt =
      s.alt_cm_filt +
        (1/20) * (((correctForTilt d.distance_cm d.rotation_zz : ℤ) : ℚ) -
          s.alt_cm_filt) := by
    simp [read_rangefinder, hh, not_lt.mpr ht, filtApply]
  refine ⟨heq, ?_⟩
  rw [heq, add_sub_cancel_left, abs_mul]
  have h20 : |(1/20 : ℚ)| = 1/20 := by norm_num
  rw [h20]

/-- C4 witness: with old filter value 100, a healthy 500 cm sample
500 ms after the last healthy one moves the filter to
100 + 0.05 * (500 - 100) = 120. -/
theorem c4_blend_within_timeout_witness :
    (read_rangefinder exStateBlend exInputGood 5000).state.alt_cm_filt =
      exStateBlend.alt_cm_filt +
        (1/20) *
          (((correctForTilt exInputGood.distance_cm exInputGood.rotation_zz :
              ℤ) : ℚ) - exStateBlend.alt_cm_filt) :=
  (c4_blend_within_timeout exStateBlend exInputGood 5000 (by decide)
    (by decide)).1

/-- The waypoint-consumer publication of `read_rangefinder`,
componentwise: the state's `enabled` flag, the cycle's health
evaluation, and the inertial vertical position minus the filter
value. -/
theorem read_rangefinder_wp_pub (s : RangefinderState) (d : DriverInput)
    (now : Nat) :
    (read_rangefinder s d now).wp_pub.enabled = s.enabled ∧
      (read_rangefinder s d now).wp_pub.healthy = healthEval d ∧
      (read_rangefinder s d now).wp_pub.terrain_offset_cm =
        d.pos_z_up_cm - (read_rangefinder s d now).state.alt_cm_filt := by
  refine ⟨?_, ?_, ?_⟩ <;>
    simp only [read_rangefinder] <;>
    (try (split <;> (try split) <;> rfl))

/-- The circle-consumer publication of `read_rangefinder`,
componentwise: enabled only when the state is enabled and the waypoint
controller reports the rangefinder in use. -/
theorem read_rangefinder_circle_pub (s : RangefinderState) (d : DriverInput)
    (now : Nat) :
    (read_rangefinder s d now).circle_pub.enabled =
        (s.enabled && d.wp_nav_rangefinder_used) ∧
      (read_rangefinder s d now).circle_pub.healthy = healthEval d ∧
      (read_rangefinder s d now).circle_pub.terrain_offset_cm =
        d.pos_z_up_cm - (read_rangefinder s d now).state.alt_cm_filt := by
  refine ⟨?_, ?_, ?_⟩ <;>
    simp only [read_rangefinder] <;>
    (try (split <;> (try split) <;> rfl))

/-- C5 counterexample: the tilt-corrected product is truncated to an
integer by the assignment back to `int16_t`, so at raw distance 1 cm
and rotation 0.5 the stored value is 0, which is neither the exact
product 0.707 nor bounded below by 0.707 times the raw distance. -/
theorem c5_counterexample :
    correctForTilt 1 (1/2) = 0 ∧
      ((correctForTilt 1 (1/2) : ℤ) : ℚ) < (707/1000) * ((1 : ℤ) : ℚ) ∧
      ((correctForTilt 1 (1/2) : ℤ) : ℚ) ≠
        ((1 : ℤ) : ℚ) * max (707/1000 : ℚ) (1/2) := by
  have h : correctForTilt 1 (1/2) = 0 := by
    unfold correctForTilt truncQ
    rw [max_eq_left (by norm_num : (1/2 : ℚ) ≤ 707/1000)]
    rw [if_pos (by norm_num : (0:ℚ) ≤ ((1 : ℤ) : ℚ) * (707/1000))]
    norm_num
  refine ⟨h, ?_, ?_⟩
  · rw [h]
    norm_num
  · rw [h, max_eq_left (by norm_num : (1/2 : ℚ) ≤ 707/1000)]
    norm_num

/-- C5 amended: tilt correction multiplies the raw distance by
`max(0.707, rotationZZ)` and truncates the product toward zero to an
integer; for every nonnegative raw distance it is monotone
non-decreasing in `rotationZZ`, and the corrected value is strictly
greater than `0.707 * rawCm - 1` (the bound `0.707 * rawCm` itself can
be undershot by less than 1 cm because of the truncation). -/
theorem c5_amended (raw : ℤ) (zz zz2 : ℚ) (hraw : 0 ≤ raw)
    (hzz : zz ≤ zz2) :
    correctForTilt raw zz ≤ correctForTilt raw zz2 ∧
      (707/1000 : ℚ) * (raw : ℚ) - 1 < ((correctForTilt raw zz : ℤ) : ℚ) := by
  have hrawQ : (0:ℚ) ≤ (raw : ℚ) := by exact_mod_cast hraw
  have hq : (0:ℚ) ≤ (raw : ℚ) * max (707/1000 : ℚ) zz :=
    mul_nonneg hrawQ (le_trans (by norm_num) (le_max_left _ _))
  have hq2 : (0:ℚ) ≤ (raw : ℚ) * max (707/1000 : ℚ) zz2 :=
    mul_nonneg hrawQ (le_trans (by norm_num) (le_max_left _ _))
  constructor
  · unfold correctForTilt truncQ
    rw [if_pos hq, if_pos hq2]
    exact Int.floor_le_floor
      (mul_le_mul_of_nonneg_left (max_le_max le_rfl hzz) hrawQ)
  · unfold correctForTilt truncQ
    rw [if_pos hq]
    have h1 : (707/1000 : ℚ) * (raw : ℚ) ≤
        (raw : ℚ) * max (707/1000 : ℚ) zz := by
      rw [mul_comm]
      exact mul_le_mul_of_nonneg_left (le_max_left _ _) hrawQ
    calc (707/1000 : ℚ) * (raw : ℚ) - 1
        ≤ (raw : ℚ) * max (707/1000 : ℚ) zz - 1 := by linarith
      _ < (⌊(raw : ℚ) * max (707/1000 : ℚ) zz⌋ : ℚ) := Int.sub_one_lt_floor _

/-- C5 amended witness: at raw distance 500 cm, the corrected value at
rotation 0.5 is at most the one at rotation 1, and exceeds
0.707 * 500 - 1. -/
theorem c5_amended_witness :
    correctForTilt 500 (1/2) ≤ correctForTilt 500 1 ∧
      (707/1000 : ℚ) * ((500 : ℤ) : ℚ) - 1 <
        ((correctForTilt 500 (1/2) : ℤ) : ℚ) :=
  c5_amended 500 (1/2) 1 (by norm_num) (by norm_num)

/-- C8 counterexample: with `enabled` false but a fully healthy driver
input, `read_rangefinder` publishes `healthy = true` to both
navigation consumers, not the claimed `(false, false, offset)`. -/
theorem c8_counterexample :
    exStateDisabled.enabled = false ∧
      (read_rangefinder exStateDisabled exInputGood 5000).wp_pub.healthy =
        true ∧
      (read_rangefinder exStateDisabled exInputGood 5000).circle_pub.healthy =
        true := by
  refine ⟨rfl, ?_, ?_⟩ <;> decide

/-- C8 amended: when `enabled` is false the call still executes to
completion (it is a total function) and publishes to both consumers the
triple `(false, h, offset)` where `h` is the current cycle's health
evaluation — forced false only when the driver inputs fail a health
check — and `offset` is the inertial vertical position minus the filter
value. -/
theorem c8_amended (s : RangefinderState) (d : DriverInput) (now : Nat)
    (he : s.enabled = false) :
    (read_rangefinder s d now).wp_pub.enabled = false ∧
      (read_rangefinder s d now).circle_pub.enabled = false ∧
      (read_rangefinder s d now).wp_pub.healthy = healthEval d ∧
      (read_rangefinder s d now).circle_pub.healthy = healthEval d ∧
      (read_rangefinder s d now).wp_pub.terrain_offset_cm =
        d.pos_z_up_cm - (read_rangefinder s d now).state.alt_cm_filt ∧
      (read_rangefinder s d now).circle_pub.terrain_offset_cm =
        d.pos_z_up_cm - (read_rangefinder s d now).state.alt_cm_filt := by
  obtain ⟨h1, h2, h3⟩ := read_rangefinder_wp_pub s d now
  obtain ⟨h4, h5, h6⟩ := read_rangefinder_circle_pub s d now
  exact ⟨by rw [h1, he], by rw [h4, he, Bool.false_and], h2, h5, h3, h6⟩

/-- C8 amended witness: with the disabled sample state and an unhealthy
driver input, both consumers receive `enabled = false` and
`healthy = false`. -/
theorem c8_amended_witness :
    (read_rangefinder exStateDisabled exInputBad 5000).wp_pub.enabled =
        false ∧
      (read_rangefinder exStateDisabled exInputBad 5000).circle_pub.enabled =
        false ∧
      (read_rangefinder exStateDisabled exInputBad 5000).wp_pub.healthy =
        healthEval exInputBad :=
  ⟨(c8_amended exStateDisabled exInputBad 5000 rfl).1,
    (c8_amended exStateDisabled exInputBad 5000 rfl).2.1,
    (c8_amended exStateDisabled exInputBad 5000 rfl).2.2.1⟩

end Surftrak
